import Mathlib

/-!
Verification of the video scene-summarisation service (`app.py`, `utilis.py`)
against its natural-language specification.

The embedding is shallow: the arithmetic of the frame-sampling planner
(`extract_frames`, lines 79-95 of `utilis.py`) is modelled over `ℚ`; the
external effects (the `ffmpeg` subprocess, the `uuid` library, the
filesystem) are parameters of the Lean functions, so each claim is settled
for every possible behaviour of those collaborators.
-/

namespace VideoSum

/-! ## FrameSamplingPlanner (`utilis.py` `extract_frames`, lines 81-95) -/

/-- Lines 83-92 of `utilis.py`: the number of frames actually planned for a
scene of the given duration when `num_frames` are requested.
`int(duration * 2)` in Python truncates toward zero; on the branch where it
is evaluated `duration > 0.1 > 0`, so it agrees with `Int.floor` followed
by `Int.toNat`. -/
def plannedFrameCount (duration : ℚ) (num_frames : ℕ) : ℕ :=
  if duration ≤ 1/10 then 0
  else if duration < (num_frames : ℚ) * (1/2) then max 1 (⌊duration * 2⌋.toNat)
  else num_frames

/-- Lines 94-95 of `utilis.py`: `interval = duration / (actual_frames + 1)`;
`timestamps = [start_sec + (i + 1) * interval for i in range(actual_frames)]`. -/
def plannedTimestamps (start_sec duration : ℚ) (actual_frames : ℕ) : List ℚ :=
  (List.range actual_frames).map
    (fun (i : ℕ) => start_sec + ((i : ℚ) + 1) * (duration / ((actual_frames : ℚ) + 1)))

/-- A map of a strictly monotone rational function over `List.range` is
strictly increasing. -/
theorem pairwise_lt_map_range {f : ℕ → ℚ} (k : ℕ)
    (hf : ∀ i j, i < j → f i < f j) :
    ((List.range k).map f).Pairwise (· < ·) := by
  rw [List.pairwise_map]
  exact (List.pairwise_lt_range k).imp (fun h => hf _ _ h)

/-- C1: for a span with `end - start > 0.1` and chosen frame count `k ≥ 1`,
the planned timestamps are exactly `start + i * (duration / (k+1))` for
`i = 1..k`; every timestamp lies strictly between `start` and `end`; the
sequence is strictly increasing; and for a 10-second span with `N = 3` the
timestamps relative to the span start are `[2.5, 5.0, 7.5]`. -/
theorem planner_timestamps_strictly_inside_and_increasing
    (start_sec end_sec : ℚ) (k : ℕ)
    (hd : 1/10 < end_sec - start_sec) (hk : 1 ≤ k) :
    plannedTimestamps start_sec (end_sec - start_sec) k =
      (List.range k).map
        (fun (i : ℕ) => start_sec + ((i : ℚ) + 1) * ((end_sec - start_sec) / ((k : ℚ) + 1)))
    ∧ (∀ t ∈ plannedTimestamps start_sec (end_sec - start_sec) k,
        start_sec < t ∧ t < end_sec)
    ∧ (plannedTimestamps start_sec (end_sec - start_sec) k).Pairwise (· < ·)
    ∧ plannedTimestamps 0 10 (plannedFrameCount 10 3) = [5/2, 5, 15/2] := by
  have hd0 : 0 < end_sec - start_sec := by linarith
  have hknn : (0 : ℚ) ≤ (k : ℚ) := Nat.cast_nonneg k
  have hk1 : (0 : ℚ) < (k : ℚ) + 1 := by linarith
  have hint : 0 < (end_sec - start_sec) / ((k : ℚ) + 1) := div_pos hd0 hk1
  refine ⟨rfl, ?_, ?_, ?_⟩
  · intro t ht
    rw [plannedTimestamps] at ht
    obtain ⟨i, hi, rfl⟩ := List.mem_map.1 ht
    rw [List.mem_range] at hi
    constructor
    · have hi1 : (0 : ℚ) < (i : ℚ) + 1 := by
        have : (0 : ℚ) ≤ (i : ℚ) := Nat.cast_nonneg i
        linarith
      have : 0 < ((i : ℚ) + 1) * ((end_sec - start_sec) / ((k : ℚ) + 1)) :=
        mul_pos hi1 hint
      linarith
    · have hik : ((i : ℚ) + 1) < (k : ℚ) + 1 := by
        have : (i : ℚ) < (k : ℚ) := by exact_mod_cast hi
        linarith
      have hlt : ((i : ℚ) + 1) * ((end_sec - start_sec) / ((k : ℚ) + 1))
          < ((k : ℚ) + 1) * ((end_sec - start_sec) / ((k : ℚ) + 1)) :=
        mul_lt_mul_of_pos_right hik hint
      have heq : ((k : ℚ) + 1) * ((end_sec - start_sec) / ((k : ℚ) + 1))
          = end_sec - start_sec := by
        field_simp
      linarith [heq ▸ hlt]
  · rw [plannedTimestamps]
    apply pairwise_lt_map_range
    intro i j hij
    have hc : ((i : ℚ) + 1) < ((j : ℚ) + 1) := by
      have : (i : ℚ) < (j : ℚ) := by exact_mod_cast hij
      linarith
    have := mul_lt_mul_of_pos_right hc hint
    linarith
  · have hc : plannedFrameCount 10 3 = 3 := by
      rw [plannedFrameCount]
      norm_num
    rw [hc, plannedTimestamps]
    simp [List.range_succ]
    norm_num

/-- Witness for `planner_timestamps_strictly_inside_and_increasing` at the
concrete span `[0, 10]` with `k = 3`. -/
theorem planner_timestamps_witness :
    (1/10 : ℚ) < 10 - 0 ∧ 1 ≤ 3
    ∧ (∀ t ∈ plannedTimestamps 0 (10 - 0) 3, (0 : ℚ) < t ∧ t < 10) :=
  ⟨by norm_num, by norm_num,
    (planner_timestamps_strictly_inside_and_increasing 0 10 3 (by norm_num)
      (by norm_num)).2.1⟩

/-- C2: the planner's frame count is `0` when `duration ≤ 0.1`,
`max(1, ⌊duration * 2⌋)` when `0.1 < duration < N * 0.5`, and exactly `N`
otherwise; in particular a 1-second span with `N = 3` plans 2 frames. -/
theorem planner_frame_count_policy (duration : ℚ) (N : ℕ) :
    ((plannedFrameCount duration N : ℤ) =
      if duration ≤ 1/10 then 0
      else if duration < (N : ℚ) * (1/2) then max 1 ⌊duration * 2⌋
      else (N : ℤ))
    ∧ plannedFrameCount 1 3 = 2 := by
  constructor
  · unfold plannedFrameCount
    split_ifs with h1 h2
    · simp
    · push_cast [Nat.cast_max]
      omega
    · rfl
  · rw [plannedFrameCount]
    norm_num
    rfl

/-- C9: for every scene span and every requested frame count `N ≥ 1`, the
frame count the planner actually uses never exceeds `N`: the short-scene
rule only ever reduces the count. -/
theorem planner_frame_count_at_most_requested (duration : ℚ) (N : ℕ)
    (hN : 1 ≤ N) : plannedFrameCount duration N ≤ N := by
  unfold plannedFrameCount
  split_ifs with h1 h2
  · exact Nat.zero_le N
  · have hfl : ⌊duration * 2⌋ < (N : ℤ) := by
      rw [Int.floor_lt]
      push_cast
      linarith
    have : ⌊duration * 2⌋.toNat ≤ N := by omega
    omega
  · exact le_refl N

/-- Witness for `planner_frame_count_at_most_requested` at a 1-second span
with `N = 3`. -/
theorem planner_frame_count_at_most_requested_witness :
    1 ≤ 3 ∧ plannedFrameCount 1 3 ≤ 3 :=
  ⟨by norm_num, planner_frame_count_at_most_requested 1 3 (by norm_num)⟩

/-! ## SceneBoundaryDetector (`utilis.py` `run_pyscenedetect`, lines 37-44)

The external detector (PySceneDetect) is a black box: its output is the
parameter `sceneList`, each span given by its start and end in seconds.
`video_manager.get_base_timecode()` is time zero and
`video_manager.get_duration()` is the total duration. -/

/-- Lines 37-44 of `utilis.py`: if the detector produced no scene list,
fall back to the single span `(0, videoDuration)`; then sort by the span
start (`scene_list.sort(key=lambda s: s[0].get_seconds())`). -/
def run_pyscenedetect (sceneList : List (ℚ × ℚ)) (videoDuration : ℚ) :
    List (ℚ × ℚ) :=
  (if sceneList.isEmpty then [((0 : ℚ), videoDuration)] else sceneList).mergeSort
    (fun a b => decide (a.1 ≤ b.1))

/-- C4: when the external boundary detector yields zero cuts, the detector
component returns exactly one scene span covering the whole video; and in
every case the spans it hands onward are sorted ascending by start time. -/
theorem detector_fallback_and_sorted (sceneList : List (ℚ × ℚ))
    (videoDuration : ℚ) (hempty : sceneList = []) :
    run_pyscenedetect sceneList videoDuration = [((0 : ℚ), videoDuration)]
    ∧ ∀ l : List (ℚ × ℚ),
        (run_pyscenedetect l videoDuration).Pairwise (fun a b => a.1 ≤ b.1) := by
  constructor
  · subst hempty
    rw [run_pyscenedetect]
    simp
  · intro l
    rw [run_pyscenedetect]
    have h : ((if l.isEmpty then [((0 : ℚ), videoDuration)] else l).mergeSort
        (fun a b => decide (a.1 ≤ b.1))).Pairwise
          (fun a b : ℚ × ℚ => decide (a.1 ≤ b.1) = true) :=
      List.sorted_mergeSort
        (fun a b c hab hbc => by
          simp only [decide_eq_true_eq] at *
          exact le_trans hab hbc)
        (fun a b => by
          simp only [Bool.or_eq_true, decide_eq_true_eq]
          exact le_total a.1 b.1)
        (if l.isEmpty then [((0 : ℚ), videoDuration)] else l)
    exact h.imp (fun hab => by simpa using hab)

/-- Witness for `detector_fallback_and_sorted`: a detector that finds no
cuts in a 120-second video yields the single span `(0, 120)`. -/
theorem detector_fallback_witness :
    run_pyscenedetect [] 120 = [((0 : ℚ), 120)] :=
  (detector_fallback_and_sorted [] 120 rfl).1

/-! ## Extracted-frame file names (`utilis.py` line 99) -/

/-- Python's `f"{n:02d}"` for a non-negative integer: the decimal digits,
left-padded with `'0'` to a minimum width of 2. -/
def format02d (n : ℕ) : String :=
  if n < 10 then "0" ++ Nat.repr n else Nat.repr n

/-- Line 99 of `utilis.py`:
`f"scene_{scene_id:02d}_{idx:02d}.jpg"`. -/
def frameName (scene_id idx : ℕ) : String :=
  "scene_" ++ format02d scene_id ++ "_" ++ format02d idx ++ ".jpg"

/-- For arguments below 100, `format02d` produces exactly the two decimal
digit characters. -/
theorem format02d_eq_digits :
    ∀ n, n < 100 →
      (format02d n).data = [Nat.digitChar (n / 10), Nat.digitChar (n % 10)] := by
  decide

/-- `Nat.digitChar` is injective on single digits. -/
theorem digitChar_injective_lt_ten :
    ∀ x, x < 10 → ∀ y, y < 10 → Nat.digitChar x = Nat.digitChar y → x = y := by
  decide

/-- C8: frame file names follow the scheme
`scene_<2-digit scene id>_<2-digit sequence index>.jpg` (witnessed by the
concrete shape at `(1, 2)`), and within one request the naming is
collision-free: two distinct `(scene_id, sequence_index)` pairs give
different file names. -/
theorem frame_names_collision_free (a b c d : ℕ)
    (ha : a < 100) (hb : b < 100) (hc : c < 100) (hd : d < 100)
    (hne : (a, b) ≠ (c, d)) :
    frameName 1 2 = "scene_01_02.jpg" ∧ frameName a b ≠ frameName c d := by
  refine ⟨by decide, ?_⟩
  intro h
  have hdata : (frameName a b).data = (frameName c d).data := by rw [h]
  rw [frameName, frameName] at hdata
  simp only [String.data_append, format02d_eq_digits a ha,
    format02d_eq_digits b hb, format02d_eq_digits c hc,
    format02d_eq_digits d hd, List.append_assoc, List.cons_append,
    List.nil_append, List.cons.injEq] at hdata
  apply hne
  have h1 : a / 10 = c / 10 :=
    digitChar_injective_lt_ten _ (by omega) _ (by omega)
      (by tauto)
  have h2 : a % 10 = c % 10 :=
    digitChar_injective_lt_ten _ (by omega) _ (by omega)
      (by tauto)
  have h3 : b / 10 = d / 10 :=
    digitChar_injective_lt_ten _ (by omega) _ (by omega)
      (by tauto)
  have h4 : b % 10 = d % 10 :=
    digitChar_injective_lt_ten _ (by omega) _ (by omega)
      (by tauto)
  have : a = c := by omega
  have : b = d := by omega
  simp_all

/-- Witness for `frame_names_collision_free` at the pairs `(1, 2)` and
`(1, 3)`. -/
theorem frame_names_collision_free_witness :
    frameName 1 2 = "scene_01_02.jpg" ∧ frameName 1 2 ≠ frameName 1 3 :=
  frame_names_collision_free 1 2 1 3 (by norm_num) (by norm_num)
    (by norm_num) (by norm_num) (by simp)

/-! ## FrameExtractor (`utilis.py` `extract_frames`, lines 97-130)

One `ffmpeg` invocation (line 114, `subprocess.run(..., timeout=30)`)
either raises `subprocess.TimeoutExpired` or completes with a return code
and with the output file present on disk or not.  The behaviour of the
external tool is the parameter `run`, indexed by the 1-based invocation
index and the seek timestamp. -/

/-- Outcome of one external rasterization invocation. -/
inductive RunOutcome where
  | timeout
  | completed (returncode : ℤ) (fileExists : Bool)
deriving DecidableEq

/-- Python's `enumerate(xs, i)`: pair each element with its index,
counting from `i`. -/
def enumerate1 {α : Type} : ℕ → List α → List (ℕ × α)
  | _, [] => []
  | i, a :: rest => (i, a) :: enumerate1 (i + 1) rest

/-- Lines 98-121 of `utilis.py`: the `for idx, ts in enumerate(timestamps, 1)`
loop.  A `returncode == 0` together with an existing output file appends
`scene_<id>_<idx>.jpg` to the accumulated list (lines 116-117); any other
completion is logged and skipped (lines 119-120); a `TimeoutExpired`
escapes the loop (modelled as `Except.error`), reaching the handler at
line 125. -/
def extractLoop (run : ℕ → ℚ → RunOutcome) (scene_id : ℕ) :
    List (ℕ × ℚ) → Except Unit (List String)
  | [] => Except.ok []
  | (idx, ts) :: rest =>
    match run idx ts with
    | RunOutcome.timeout => Except.error ()
    | RunOutcome.completed rc ex =>
      if rc = 0 ∧ ex = true then
        (extractLoop run scene_id rest).map (fun fs => frameName scene_id idx :: fs)
      else extractLoop run scene_id rest

/-- Lines 78-130 of `utilis.py` (`extract_frames`): the duration guard, the
adaptive frame count, the evenly spaced timestamps, and the extraction
loop; `except subprocess.TimeoutExpired: return []` (lines 125-127) turns a
timeout escaping the loop into an empty result. -/
def extract_frames (run : ℕ → ℚ → RunOutcome) (start_sec end_sec : ℚ)
    (num_frames scene_id : ℕ) : List String :=
  if end_sec - start_sec ≤ 1/10 then []
  else
    match extractLoop run scene_id (enumerate1 1
        (plannedTimestamps start_sec (end_sec - start_sec)
          (plannedFrameCount (end_sec - start_sec) num_frames))) with
    | Except.ok frames => frames
    | Except.error _ => []

/-- The planned (index, timestamp) pairs for a scene, indices counted
from 1 as in `enumerate(timestamps, 1)`. -/
def plannedPairs (start_sec end_sec : ℚ) (num_frames : ℕ) : List (ℕ × ℚ) :=
  enumerate1 1 (plannedTimestamps start_sec (end_sec - start_sec)
    (plannedFrameCount (end_sec - start_sec) num_frames))

/-- The extraction loop aborts with an error exactly when some invocation
times out; otherwise it collects, in order, the names of the invocations
that exited zero with the output file present. -/
theorem extractLoop_characterisation (run : ℕ → ℚ → RunOutcome)
    (scene_id : ℕ) (l : List (ℕ × ℚ)) :
    extractLoop run scene_id l =
      if l.any (fun p => decide (run p.1 p.2 = RunOutcome.timeout)) then
        Except.error ()
      else Except.ok (l.filterMap (fun p =>
        match run p.1 p.2 with
        | RunOutcome.timeout => none
        | RunOutcome.completed rc ex =>
          if rc = 0 ∧ ex = true then some (frameName scene_id p.1) else none)) := by
  induction l with
  | nil => rfl
  | cons p rest ih =>
    obtain ⟨idx, ts⟩ := p
    rw [extractLoop]
    cases hr : run idx ts with
    | timeout =>
      simp [List.any_cons, hr]
    | completed rc ex =>
      by_cases hs : rc = 0 ∧ ex = true
      · simp only [hr, if_pos hs, ih]
        by_cases ht : rest.any (fun p => decide (run p.1 p.2 = RunOutcome.timeout))
        · simp [List.any_cons, hr, ht, Except.map]
        · simp [List.any_cons, hr, ht, Except.map, hs]
      · simp only [hr, if_neg hs, ih]
        by_cases ht : rest.any (fun p => decide (run p.1 p.2 = RunOutcome.timeout))
        · simp [List.any_cons, hr, ht]
        · simp [List.any_cons, hr, ht, hs]

/-- C3 as amended: a non-zero exit (or missing output file) for one
timestamp is skipped and extraction continues, and when no invocation
times out the result is exactly the ordered list of names of the
successful invocations; but a timeout makes the whole scene return the
empty list, discarding frames already extracted. -/
theorem extractor_skip_failures_but_timeout_aborts
    (run : ℕ → ℚ → RunOutcome) (start_sec end_sec : ℚ)
    (num_frames scene_id : ℕ) :
    extract_frames run start_sec end_sec num_frames scene_id =
      if end_sec - start_sec ≤ 1/10 then []
      else if (plannedPairs start_sec end_sec num_frames).any
          (fun p => decide (run p.1 p.2 = RunOutcome.timeout)) then []
      else (plannedPairs start_sec end_sec num_frames).filterMap (fun p =>
        match run p.1 p.2 with
        | RunOutcome.timeout => none
        | RunOutcome.completed rc ex =>
          if rc = 0 ∧ ex = true then some (frameName scene_id p.1) else none) := by
  rw [extract_frames, plannedPairs]
  by_cases hshort : end_sec - start_sec ≤ 1/10
  · rw [if_pos hshort, if_pos hshort]
  · rw [if_neg hshort, if_neg hshort]
    rw [extractLoop_characterisation]
    by_cases ht : (enumerate1 1 (plannedTimestamps start_sec (end_sec - start_sec)
          (plannedFrameCount (end_sec - start_sec) num_frames))).any
        (fun p => decide (run p.1 p.2 = RunOutcome.timeout))
    · rw [if_pos ht, if_pos ht]
    · rw [if_neg ht, if_neg ht]

/-- The `ffmpeg` behaviour used as the counterexample to C3 as stated: the
first invocation succeeds, every later one times out. -/
def timeoutAfterFirst : ℕ → ℚ → RunOutcome :=
  fun idx _ => if idx = 1 then RunOutcome.completed 0 true else RunOutcome.timeout

/-- Counterexample to C3 as stated: on the span `[0, 10]` with 2 requested
frames, the first timestamp's invocation succeeds and the second times
out, yet `extract_frames` returns `[]` — the frame extracted before the
later timestamp's timeout is *not* returned, because
`subprocess.TimeoutExpired` is caught outside the loop (line 125 of
`utilis.py`) and the accumulated list is discarded. -/
theorem extractor_counterexample :
    timeoutAfterFirst 1 (10/3) = RunOutcome.completed 0 true
    ∧ timeoutAfterFirst 2 (20/3) = RunOutcome.timeout
    ∧ extract_frames timeoutAfterFirst 0 10 2 1 = [] := by
  refine ⟨rfl, rfl, ?_⟩
  rw [extractor_skip_failures_but_timeout_aborts]
  have hcount : plannedFrameCount (10 - 0) 2 = 2 := by
    rw [plannedFrameCount]
    norm_num
  have hpairs : plannedPairs 0 10 2 = [(1, 10/3), (2, 20/3)] := by
    rw [plannedPairs, hcount, plannedTimestamps]
    simp [List.range_succ, enumerate1]
    norm_num
  rw [hpairs]
  norm_num [timeoutAfterFirst]

/-! ## ScenePipeline (`app.py` `analyze_video`, lines 76-98)

The per-scene extraction (the call to `extract_frames` at line 84, whose
collaborators are external) is the parameter `extract`, giving the frame
list for the 1-based scene index and the scene record. -/

/-- Lines 81-95 of `app.py`: `for idx, scene in enumerate(scenes, 1)` runs
the extractor and keeps only scenes with a non-empty frame list
(`if frames:` at line 85). -/
def processScenes {α : Type} (extract : ℕ → α → List String)
    (scenes : List α) : List (ℕ × List String) :=
  (enumerate1 1 scenes).filterMap (fun p =>
    if (extract p.1 p.2).isEmpty then none else some (p.1, extract p.1 p.2))

/-- Lines 76-98 of `app.py`: no detected scenes is reported at line 77-78;
otherwise the scenes are processed and an empty aggregate result is
reported as `"Failed to extract frames from any scenes"` (lines 97-98). -/
def analyze_video {α : Type} (extract : ℕ → α → List String)
    (scenes : List α) : Except String (List (ℕ × List String)) :=
  if scenes.isEmpty then Except.error "No scenes detected in video"
  else if (processScenes extract scenes).isEmpty then
    Except.error "Failed to extract frames from any scenes"
  else Except.ok (processScenes extract scenes)

/-- `processScenes` is empty exactly when every scene extracts no frames. -/
theorem processScenes_isEmpty_iff {α : Type} (extract : ℕ → α → List String)
    (i : ℕ) (scenes : List α) :
    ((enumerate1 i scenes).filterMap (fun p =>
        if (extract p.1 p.2).isEmpty then none
        else some (p.1, extract p.1 p.2))).isEmpty =
      (enumerate1 i scenes).all (fun p => (extract p.1 p.2).isEmpty) := by
  induction scenes generalizing i with
  | nil => rfl
  | cons a rest ih =>
    rw [enumerate1, List.filterMap_cons, List.all_cons]
    by_cases h : (extract i a).isEmpty
    · rw [if_pos h, h, Bool.true_and]
      exact ih (i + 1)
    · rw [if_neg h]
      simp [h]

/-- C5: a scene whose extraction returns zero frames is excluded from the
final result (dropped, not reported as an error), while if every scene
ends with zero frames the whole request fails with the
no-frames-extracted error instead of returning an empty list. -/
theorem pipeline_drops_empty_scenes_fails_when_all_empty {α : Type}
    (extract : ℕ → α → List String) (scenes : List α) :
    analyze_video extract scenes =
      if scenes.isEmpty then Except.error "No scenes detected in video"
      else if (enumerate1 1 scenes).all (fun p => (extract p.1 p.2).isEmpty) then
        Except.error "Failed to extract frames from any scenes"
      else Except.ok ((enumerate1 1 scenes).filterMap (fun p =>
        if (extract p.1 p.2).isEmpty then none
        else some (p.1, extract p.1 p.2))) := by
  rw [analyze_video, processScenes, processScenes_isEmpty_iff]

/-! ## StorageLifecycle: TTL sweep (`utilis.py` `cleanup_old_files`,
lines 223-264)

One top-level entry of the upload directory, as the sweep observes it:
its name, whether `os.path.isdir` holds, whether `uuid.UUID(name)`
parses, and its `os.path.getctime` value. -/

structure DirEntry where
  name : String
  isDir : Bool
  uuidValid : Bool
  ctime : ℚ
deriving DecidableEq

/-- Lines 235-258 of `utilis.py`: `cutoff_time = now - max_age_hours * 3600`;
for each listed entry that is a directory (line 242), whose name parses as
a UUID (line 246), and whose creation time is below the cutoff (line 249),
`shutil.rmtree(..., ignore_errors=True)` is invoked.  The returned list
holds the names of the entries the sweep removes. -/
def cleanup_old_files (now max_age_hours : ℚ) (entries : List DirEntry) :
    List String :=
  entries.filterMap (fun e =>
    if e.isDir then
      if e.uuidValid then
        if e.ctime < now - max_age_hours * 3600 then some e.name
        else none
      else none
    else none)

/-- The non-directory, UUID-named, old entry refuting C6 as stated. -/
def strayFile : DirEntry :=
  { name := "2f0e2bcb-1111-2222-3333-444455556666"
    isDir := false
    uuidValid := true
    ctime := 0 }

/-- Counterexample to C6 as stated: the sweep does not delete every entry
whose name parses as a UUID and whose creation time is old enough — a
plain (non-directory) file with a UUID name is skipped by the
`os.path.isdir` test at line 242 of `utilis.py`. -/
theorem sweep_counterexample :
    ¬ ∀ (now max_age_hours : ℚ) (entries : List DirEntry),
        ∀ e ∈ entries, e.uuidValid = true →
          e.ctime < now - max_age_hours * 3600 →
            e.name ∈ cleanup_old_files now max_age_hours entries := by
  intro h
  have := h 10000 1 [strayFile] strayFile (List.mem_singleton.2 rfl) rfl
    (by rw [strayFile]; norm_num)
  rw [cleanup_old_files, strayFile] at this
  simp at this

/-- C6 as amended: the sweep removes a top-level entry iff that entry is a
directory whose name parses as a valid UUID and whose creation time is
older than `max_age_hours`; entries whose name does not parse (and plain
files) are left untouched; and the sweep of a concatenation is the
concatenation of the sweeps — the outcome for one entry never aborts or
alters the processing of the remaining entries. -/
theorem sweep_deletes_old_uuid_directories (now max_age_hours : ℚ)
    (entries l1 l2 : List DirEntry) (n : String) :
    (n ∈ cleanup_old_files now max_age_hours entries ↔
      ∃ e ∈ entries, e.name = n ∧ e.isDir = true ∧ e.uuidValid = true
        ∧ e.ctime < now - max_age_hours * 3600)
    ∧ cleanup_old_files now max_age_hours (l1 ++ l2) =
        cleanup_old_files now max_age_hours l1
          ++ cleanup_old_files now max_age_hours l2 := by
  constructor
  · rw [cleanup_old_files, List.mem_filterMap]
    constructor
    · rintro ⟨e, he, hsome⟩
      refine ⟨e, he, ?_⟩
      by_cases h1 : e.isDir
      · by_cases h2 : e.uuidValid
        · by_cases h3 : e.ctime < now - max_age_hours * 3600
          · rw [if_pos h1, if_pos h2, if_pos h3] at hsome
            exact ⟨Option.some_injective _ hsome, h1, h2, h3⟩
          · rw [if_pos h1, if_pos h2, if_neg h3] at hsome
            exact absurd hsome (Option.some_ne_none n).symm
        · rw [if_pos h1, if_neg h2] at hsome
          exact absurd hsome (Option.some_ne_none n).symm
      · rw [if_neg h1] at hsome
        exact absurd hsome (Option.some_ne_none n).symm
    · rintro ⟨e, he, hn, h1, h2, h3⟩
      exact ⟨e, he, by rw [if_pos h1, if_pos h2, if_pos h3, hn]⟩
  · rw [cleanup_old_files, cleanup_old_files, cleanup_old_files,
      List.filterMap_append]

/-! ## StorageLifecycle: per-request deletion (`app.py` `cleanup_request`,
lines 154-166)

The filesystem state is the list of existing workspace directory names
under the upload directory; `uuid.UUID(req_id)` is the oracle
`isValidUUID`.  The response records the HTTP status, the message text,
and whether the JSON body used the `"error"` key rather than the
`"message"` key. -/

structure HttpResponse where
  usedErrorKey : Bool
  message : String
  status : ℕ
deriving DecidableEq

/-- Lines 154-166 of `app.py`: an invalid UUID is a 400 error; an existing
workspace is removed (`shutil.rmtree(..., ignore_errors=True)`) with a 200
`"Cleanup successful"`; a missing workspace answers 404 with the
`"message"` body `"Request not found"`, not an `"error"` body. -/
def cleanup_request (isValidUUID : String → Bool) (req_id : String)
    (fs : List String) : HttpResponse × List String :=
  if isValidUUID req_id then
    if req_id ∈ fs then
      (⟨false, "Cleanup successful", 200⟩, fs.filter (fun x => x ≠ req_id))
    else (⟨false, "Request not found", 404⟩, fs)
  else (⟨true, "Invalid request ID", 400⟩, fs)

/-- C7: the per-request cleanup is idempotent — after one call the
workspace is absent, a second call leaves the filesystem in the same
state, and deleting a workspace that does not exist is not an error: the
state is untouched and the reply is the `"message"`-keyed
`"Request not found"`, not an `"error"` body. -/
theorem cleanup_request_idempotent (isValidUUID : String → Bool)
    (req_id : String) (fs : List String) (hv : isValidUUID req_id = true) :
    ((cleanup_request isValidUUID req_id
        ((cleanup_request isValidUUID req_id fs).2)).2 =
      (cleanup_request isValidUUID req_id fs).2)
    ∧ req_id ∉ (cleanup_request isValidUUID req_id fs).2
    ∧ (req_id ∉ fs →
        cleanup_request isValidUUID req_id fs =
          (⟨false, "Request not found", 404⟩, fs)) := by
  have habsent : req_id ∉ (cleanup_request isValidUUID req_id fs).2 := by
    rw [cleanup_request, if_pos hv]
    by_cases hmem : req_id ∈ fs
    · rw [if_pos hmem]
      intro hcontra
      have := List.of_mem_filter hcontra
      simp at this
    · rw [if_neg hmem]
      exact hmem
  refine ⟨?_, habsent, ?_⟩
  · rw [cleanup_request, if_pos hv]
    rw [if_neg habsent]
  · intro hmem
    rw [cleanup_request, if_pos hv, if_neg hmem]

/-- Witness for `cleanup_request_idempotent`: deleting the workspace `"a"`
when no workspace exists. -/
theorem cleanup_request_idempotent_witness :
    ((cleanup_request (fun _ => true) "a"
        ((cleanup_request (fun _ => true) "a" []).2)).2 =
      (cleanup_request (fun _ => true) "a" []).2)
    ∧ "a" ∉ (cleanup_request (fun _ => true) "a" []).2
    ∧ cleanup_request (fun _ => true) "a" [] =
        (⟨false, "Request not found", 404⟩, []) :=
  ⟨(cleanup_request_idempotent (fun _ => true) "a" [] rfl).1,
    (cleanup_request_idempotent (fun _ => true) "a" [] rfl).2.1,
    (cleanup_request_idempotent (fun _ => true) "a" [] rfl).2.2
      (List.not_mem_nil "a")⟩

/-! ## TimeCodec (`utilis.py` `time_to_seconds`, lines 132-143)

Python's `str.split(':')` on the character list of the input, and
`float(...)` as the oracle `parseFloat` (`none` models the `ValueError`
raised on a non-numeric part, which line 143 re-raises as
`ValueError(f"Invalid time format: ...")`, as does the explicit length
check at lines 136-137; the raising outcomes are `none` below). -/

/-- `str.split(':')`: split a character list at every `':'`; the empty
string yields one empty part, and separators at the ends yield empty
parts. -/
def splitOnColon : List Char → List (List Char)
  | [] => [[]]
  | c :: rest =>
    if c = ':' then [] :: splitOnColon rest
    else ((c :: (splitOnColon rest).headD []) :: (splitOnColon rest).tail)

/-- Lines 132-143 of `utilis.py`: split on `':'`, require exactly three
parts, convert each with `float`, and return
`hours * 3600 + minutes * 60 + seconds`; every failure raises
`ValueError` (modelled as `none`). -/
def time_to_seconds (parseFloat : List Char → Option ℚ)
    (time_str : List Char) : Option ℚ :=
  if (splitOnColon time_str).length ≠ 3 then none
  else
    match splitOnColon time_str with
    | [h, m, s] =>
      match parseFloat h, parseFloat m, parseFloat s with
      | some hours, some minutes, some seconds =>
        some (hours * 3600 + minutes * 60 + seconds)
      | _, _, _ => none
    | _ => none

/-- C10: `time_to_seconds` returns `hours * 3600 + minutes * 60 + seconds`
exactly for the inputs that split on `':'` into three parts each parseable
as a float, and signals `ValueError` (returns no value) for every other
input — wrong number of parts or any non-numeric part. -/
theorem time_to_seconds_characterisation
    (parseFloat : List Char → Option ℚ) (time_str : List Char) (v : ℚ) :
    time_to_seconds parseFloat time_str = some v ↔
      ∃ a b c hours minutes seconds,
        splitOnColon time_str = [a, b, c]
        ∧ parseFloat a = some hours
        ∧ parseFloat b = some minutes
        ∧ parseFloat c = some seconds
        ∧ v = hours * 3600 + minutes * 60 + seconds := by
  rw [time_to_seconds]
  constructor
  · intro hsome
    by_cases hlen : (splitOnColon time_str).length ≠ 3
    · rw [if_pos hlen] at hsome
      exact absurd hsome (by simp)
    · rw [if_neg hlen] at hsome
      push_neg at hlen
      obtain ⟨a, b, c, hsplit⟩ := List.length_eq_three.1 hlen
      rw [hsplit] at hsome
      have hsome : (match parseFloat a, parseFloat b, parseFloat c with
          | some hours, some minutes, some seconds =>
            some (hours * 3600 + minutes * 60 + seconds)
          | _, _, _ => none) = some v := hsome
      cases hpa : parseFloat a with
      | none => rw [hpa] at hsome; simp at hsome
      | some hours =>
        cases hpb : parseFloat b with
        | none => rw [hpa, hpb] at hsome; simp at hsome
        | some minutes =>
          cases hpc : parseFloat c with
          | none => rw [hpa, hpb, hpc] at hsome; simp at hsome
          | some seconds =>
            rw [hpa, hpb, hpc] at hsome
            simp only [Option.some.injEq] at hsome
            exact ⟨a, b, c, hours, minutes, seconds, hsplit, hpa, hpb, hpc,
              hsome.symm⟩
  · rintro ⟨a, b, c, hours, minutes, seconds, hsplit, hpa, hpb, hpc, rfl⟩
    rw [hsplit]
    simp [hpa, hpb, hpc]

/-- Witness for `time_to_seconds_characterisation`: on `"1:2:3"`, with a
float oracle reading single decimal digits, the backward direction gives
`1 * 3600 + 2 * 60 + 3 = 3723` seconds. -/
theorem time_to_seconds_witness :
    time_to_seconds
      (fun s => match s with
        | [c] => if c.isDigit then some ((c.toNat - 48 : ℕ) : ℚ) else none
        | _ => none)
      ['1', ':', '2', ':', '3'] = some 3723 :=
  (time_to_seconds_characterisation _ ['1', ':', '2', ':', '3'] 3723).2
    ⟨['1'], ['2'], ['3'], 1, 2, 3, by decide, by decide, by decide, by decide,
      by norm_num⟩

end VideoSum
